import Mathlib

/- Verification of the navi routing library against its specification.

   Definitions are shallow embeddings of the TypeScript sources
   (BrowserNavigation.ts, RouterEnv.ts, the Link/useLinkProps module).
   Components of the repository whose sources are not provided
   (URL tools, Resolver, Router, HistoryRoutingObservable) are modelled
   from the specification; each such definition carries a doc comment
   beginning with "Modelled from the spec". -/

set_option maxHeartbeats 1000000

/- ### Character-list string utilities (kernel-reduction friendly) -/

/-- Splits a character list on a separator character.  The result is always
non-empty, mirroring the behaviour of splitting a string on a character. -/
def splitListOn (c : Char) : List Char → List (List Char)
  | [] => [[]]
  | x :: xs =>
    match splitListOn c xs with
    | [] => [[]]
    | h :: t => if x = c then [] :: h :: t else (x :: h) :: t

/-- Boolean test that the first character list leads the second
(the JS expression s.indexOf(pat) === 0 for pat the first argument). -/
def leadsWith : List Char → List Char → Bool
  | [], _ => true
  | _ :: _, [] => false
  | x :: xs, y :: ys => x = y && leadsWith xs ys

/-- Helper for substring containment on character lists. -/
def containsAux (pat : List Char) : List Char → Bool
  | [] => leadsWith pat []
  | l@(_ :: rest) => leadsWith pat l || containsAux pat rest

/-- Boolean substring test: the JS expression s.indexOf(pat) !== -1. -/
def containsSubstr (s pat : String) : Bool :=
  containsAux pat.data s.data

/-- Splits a pathname string into its non-empty slash-separated segments. -/
def splitSegments (s : String) : List String :=
  ((splitListOn '/' s.data).map (fun l => String.mk l)).filter (fun seg => seg ≠ "")

/- ### modifyTrailingSlash (URL tools) -/

/-- The two modes of modifyTrailingSlash. -/
inductive SlashMode where
  | add
  | remove
deriving DecidableEq

/-- Modelled from the spec: modifyTrailingSlash(pathname, add|remove) from the
URL/path utilities (URLTools is not among the provided sources).  Per the spec
it adds the trailing slash when absent, respectively removes the trailing
slash when present; in every other case the pathname is returned unchanged. -/
def modifyTrailingSlash (p : String) (action : SlashMode) : String :=
  match action with
  | .add => if p.data.getLast? = some '/' then p else p ++ "/"
  | .remove => if p.data.getLast? = some '/' then String.mk p.data.dropLast else p

/-- Boolean test that a pathname ends with two slashes. -/
def endsWithDoubleSlash (p : String) : Bool :=
  (p.data.getLast? == some '/') && (p.data.dropLast.getLast? == some '/')

/- ### URL descriptors (URL tools) -/

/-- A partially specified URL descriptor, as accepted by createURLDescriptor. -/
structure PartialURL where
  pathname : Option String
  search : Option String
  hash : Option String
deriving DecidableEq

/-- An href value as accepted by the link helpers: either a string or a
partial URL descriptor. -/
inductive HrefVal where
  | str (s : String)
  | desc (d : PartialURL)
deriving DecidableEq

/-- A possibly-absent href (a JS falsy href is either absent or the empty
string). -/
abbrev Href := Option HrefVal

/-- Normalized, immutable URL representation. -/
structure URLDescriptor where
  pathname : String
  search : String
  hash : String
  query : List (String × String)
  href : String
deriving DecidableEq

/-- Modelled from the spec: parsing of a search string into query parameters
(URLTools is not among the provided sources). -/
def parseQuery (search : String) : List (String × String) :=
  match search.data with
  | [] => []
  | _ :: rest =>
    (splitListOn '&' rest).map (fun pair =>
      match splitListOn '=' pair with
      | [] => ("", "")
      | [k] => (String.mk k, "")
      | k :: v :: _ => (String.mk k, String.mk v))

/-- Modelled from the spec: joinPaths concatenates path segments, collapsing
redundant slashes and resolving single and double dots (URLTools is not among
the provided sources). -/
def joinPaths (parts : List String) : String :=
  let segs := (parts.map splitSegments).flatten
  let resolved := segs.foldl
    (fun acc seg => if seg = "." then acc else if seg = ".." then acc.dropLast else acc ++ [seg])
    []
  "/" ++ String.intercalate "/" resolved

/-- Modelled from the spec: createURLDescriptor parses a string or partial
descriptor into a complete URLDescriptor whose derived href field is
consistent with pathname, search and hash (URLTools is not among the provided
sources). -/
def createURLDescriptor (v : HrefVal) : URLDescriptor :=
  match v with
  | .str s =>
    let hashSplit := s.data.span (fun x => x ≠ '#')
    let searchSplit := hashSplit.1.span (fun x => x ≠ '?')
    { pathname := String.mk searchSplit.1
      search := String.mk searchSplit.2
      hash := String.mk hashSplit.2
      query := parseQuery (String.mk searchSplit.2)
      href := String.mk searchSplit.1 ++ String.mk searchSplit.2 ++ String.mk hashSplit.2 }
  | .desc d =>
    let pathname := d.pathname.getD ""
    let search := d.search.getD ""
    let hash := d.hash.getD ""
    { pathname := pathname
      search := search
      hash := hash
      query := parseQuery search
      href := pathname ++ search ++ hash }

/- ### The Link helper module (useLinkProps / useActive) -/

/-- From the Link module source: an href is external when it is falsy, or is a
string containing "://" or starting with "mailto:". -/
def isExternalHref (href : Href) : Bool :=
  match href with
  | none => true
  | some (.str s) => s == "" || containsSubstr s "://" || leadsWith "mailto:".data s.data
  | some (.desc _) => false

/-- From the Link module source: for a non-external href, resolve a string
href relative to the current route URL when it does not start with a slash,
then build a URL descriptor; external hrefs give no URL. -/
def getLinkURL (href : Href) (routeURL : Option URLDescriptor) : Option URLDescriptor :=
  if isExternalHref href then none
  else
    match href with
    | none => none
    | some v =>
      match routeURL, v with
      | some r, .str s =>
        some (createURLDescriptor (.str
          (if s.data.head? = some '/' then s else joinPaths ["/", r.pathname, s])))
      | _, _ => some (createURLDescriptor v)

/-- The route objects exposed through the React context, holding the URL of
the currently viewed route. -/
structure RouteObj where
  url : URLDescriptor
deriving DecidableEq

/-- The React context consumed by the link helpers; the navigation field
records whether a navigation object is present in the context. -/
structure NaviCtx where
  navigation : Bool
  steadyRoute : Option RouteObj
  busyRoute : Option RouteObj

/-- JS disjunction on optionals: a || b. -/
def orOption {α : Type} : Option α → Option α → Option α
  | some a, _ => some a
  | none, b => b

/-- From the useActive source: the route consulted is busyRoute falling back
to steadyRoute when loading is requested, otherwise steadyRoute falling back
to busyRoute. -/
def useActiveRoute (c : NaviCtx) (loading : Bool) : Option RouteObj :=
  if loading then orOption c.busyRoute c.steadyRoute else orOption c.steadyRoute c.busyRoute

/-- From the useActive source: with exact set, the link URL pathname is
compared for raw string equality with the route pathname; otherwise the route
pathname with a trailing slash added must start with the link URL pathname. -/
def useActive (href : Href) (c : NaviCtx) (exact : Bool) (loading : Bool) : Bool :=
  let route := useActiveRoute c loading
  let routeURL := route.map RouteObj.url
  let linkURL := getLinkURL href routeURL
  match linkURL, routeURL with
  | some l, some r =>
    if exact then l.pathname == r.pathname
    else leadsWith l.pathname.data (modifyTrailingSlash r.pathname SlashMode.add).data
  | _, _ => false

/-- From the useLinkProps source: the link URL computed from the href and the
context route (steadyRoute falling back to busyRoute). -/
def useLinkPropsLinkURL (href : Href) (c : NaviCtx) : Option URLDescriptor :=
  getLinkURL href ((orOption c.steadyRoute c.busyRoute).map RouteObj.url)

/-- From the useLinkProps source: the URL passed to navigation.prefetch by the
mount effect, if any; the call happens when prefetch is requested, a
navigation object is present, and the link URL exists with a non-empty
pathname. -/
def prefetchURL (prefetch : Bool) (navigationPresent : Bool)
    (linkURL : Option URLDescriptor) : Option URLDescriptor :=
  match linkURL with
  | some u => if prefetch && navigationPresent && u.pathname != "" then some u else none
  | none => none

/-- Opaque model of a user-supplied history state object. -/
abbrev StateObj := Nat

/-- The options object passed to navigation.navigate by the click handler. -/
structure NavigateOpts where
  state : StateObj
deriving DecidableEq

/-- The fields of a React mouse event read by the click handler. -/
structure MouseEvent where
  button : Nat
  altKey : Bool
  ctrlKey : Bool
  metaKey : Bool
  shiftKey : Bool
  defaultPrevented : Bool
deriving DecidableEq

/-- The observable outcome of one invocation of the click handler. -/
structure ClickOutcome where
  defaultPrevented : Bool
  navigateTo : Option (URLDescriptor × Option NavigateOpts)
  userOnClickCalled : Bool
  scrolledToHash : Option String
deriving DecidableEq

/-- From the useLinkProps source: the click handler.  The user onClick
callback is modelled by whether it is present and whether it prevents the
default action when called. -/
def handleClick (disabled : Bool) (hasOnClick onClickPreventsDefault : Bool)
    (routeURL linkURL : Option URLDescriptor) (state : Option StateObj)
    (ev : MouseEvent) : ClickOutcome :=
  if ev.button == 0 && !(ev.altKey || ev.ctrlKey || ev.metaKey || ev.shiftKey) then
    if disabled then
      { defaultPrevented := true, navigateTo := none, userOnClickCalled := false,
        scrolledToHash := none }
    else
      let called := hasOnClick
      let dp := ev.defaultPrevented || (hasOnClick && onClickPreventsDefault)
      match routeURL with
      | none =>
        { defaultPrevented := dp, navigateTo := none, userOnClickCalled := called,
          scrolledToHash := none }
      | some r =>
        match linkURL with
        | some l =>
          if !dp then
            let samePathname :=
              modifyTrailingSlash l.pathname SlashMode.remove ==
                modifyTrailingSlash r.pathname SlashMode.remove
            { defaultPrevented := true
              navigateTo := some (l, state.map (fun s => NavigateOpts.mk s))
              userOnClickCalled := called
              scrolledToHash :=
                if (samePathname || l.pathname == "") && l.hash == r.hash && l.hash != ""
                then some r.hash else none }
          else
            { defaultPrevented := dp, navigateTo := none, userOnClickCalled := called,
              scrolledToHash := none }
        | none =>
          { defaultPrevented := dp, navigateTo := none, userOnClickCalled := called,
            scrolledToHash := none }
  else
    { defaultPrevented := ev.defaultPrevented, navigateTo := none,
      userOnClickCalled := false, scrolledToHash := none }

/-- The href returned by useLinkProps: the resolved link URL when one exists,
otherwise the raw input href unchanged. -/
inductive HrefOut where
  | resolvedURL (href : String)
  | raw (h : Href)
deriving DecidableEq

/-- From the useLinkProps source: the returned href field. -/
def useLinkPropsHref (href : Href) (linkURL : Option URLDescriptor) : HrefOut :=
  match linkURL with
  | some u => .resolvedURL u.href
  | none => .raw href

/-- The condition singled out by claim C10: the href is falsy, contains the
substring "://", or begins with "mailto:". -/
def externalCondition (href : Href) : Prop :=
  href = none ∨ ∃ s, href = some (.str s) ∧
    (s = "" ∨ containsSubstr s "://" = true ∨ leadsWith "mailto:".data s.data = true)

/- ### Resolver (request coalescing) -/

/-- The options-relevant flags of a resolution request. -/
structure ResolveOptions where
  withContent : Bool
deriving DecidableEq

/-- A resolution cache key: path plus options-relevant flags. -/
abbrev ResolverKey := String × ResolveOptions

/-- Association-list lookup on resolver keys. -/
def lookupKey (l : List (ResolverKey × Nat)) (k : ResolverKey) : Option Nat :=
  match l with
  | [] => none
  | (k', h) :: rest => if k' = k then some h else lookupKey rest k

/-- Association-list lookup of a count, defaulting to zero. -/
def countOf (l : List (ResolverKey × Nat)) (k : ResolverKey) : Nat :=
  match l with
  | [] => 0
  | (k', n) :: rest => if k' = k then n else countOf rest k

/-- Increment the count stored for a key. -/
def bumpCount (l : List (ResolverKey × Nat)) (k : ResolverKey) : List (ResolverKey × Nat) :=
  match l with
  | [] => [(k, 1)]
  | (k', n) :: rest => if k' = k then (k', n + 1) :: rest else (k', n) :: bumpCount rest k

/-- Association-list lookup of a settled value by handle. -/
def lookupHandle (l : List (Nat × String)) (h : Nat) : Option String :=
  match l with
  | [] => none
  | (h', v) :: rest => if h' = h then some v else lookupHandle rest h

/-- Modelled from the spec: the Resolver owns the in-flight-request table.
inFlight maps each pending key to its shared pending handle, loaderCalls
counts how often the user loader for a key has been invoked, and settled
records the value delivered through each handle once the loader completes. -/
structure Resolver where
  inFlight : List (ResolverKey × Nat)
  nextHandle : Nat
  loaderCalls : List (ResolverKey × Nat)
  settled : List (Nat × String)
deriving DecidableEq

/-- The empty Resolver, as freshly constructed. -/
def Resolver.empty : Resolver :=
  { inFlight := [], nextHandle := 0, loaderCalls := [], settled := [] }

/-- Modelled from the spec: Resolver.resolve computes a cache key from the
path and options-relevant flags; if an identical in-flight request exists it
returns the same pending handle without invoking the loader, otherwise it
invokes the loader once and records a fresh pending handle.  The calling
Router instance (routerId) does not enter the key, so the table is shared
across Router instances holding the same Resolver. -/
def Resolver.resolve (r : Resolver) (routerId : Nat) (path : String)
    (opts : ResolveOptions) : Nat × Resolver :=
  let key : ResolverKey := (path, opts)
  let _ := routerId
  match lookupKey r.inFlight key with
  | some h => (h, r)
  | none =>
    (r.nextHandle,
      { r with
        inFlight := (key, r.nextHandle) :: r.inFlight
        nextHandle := r.nextHandle + 1
        loaderCalls := bumpCount r.loaderCalls key })

/-- Modelled from the spec: when the single loader invocation completes, the
value is delivered through the shared pending handle and the key leaves the
in-flight table. -/
def Resolver.settle (r : Resolver) (h : Nat) (value : String) : Resolver :=
  { r with
    inFlight := r.inFlight.filter (fun p => p.2 ≠ h)
    settled := (h, value) :: r.settled }

/-- The value a caller holding a pending handle receives once it settles. -/
def Resolver.received (r : Resolver) (h : Nat) : Option String :=
  lookupHandle r.settled h

/- ### Route tree model (Switch / Page / Redirect) -/

/-- The route type discriminant surfaced through Route.type. -/
inductive RouteType where
  | Switch
  | Page
  | Redirect
  | NotFound
  | Busy
deriving DecidableEq

/-- One resolved tree level: a type tag together with the title of a page or
the target of a redirect where applicable. -/
structure Route where
  type : RouteType
  title : Option String
  target : Option String
deriving DecidableEq

/-- The route recorded when no child matches and no index route exists. -/
def notFoundRoute : Route :=
  { type := RouteType.NotFound, title := none, target := none }

/-- Modelled from the spec: the declarative route tree.  A switch owns a
mapping from path keys to child nodes; pages and redirects are leaves
(the route tree model sources are not provided). -/
inductive RouteTreeNode where
  | switchNode (children : List (String × RouteTreeNode))
  | pageNode (title : String)
  | redirectNode (target : String)

/-- The segments of a registered path key. -/
def keySegments (k : String) : List String :=
  splitSegments k

/-- Boolean prefix test on segment lists. -/
def segsLeadWith : List String → List String → Bool
  | [], _ => true
  | _ :: _, [] => false
  | x :: xs, y :: ys => x = y && segsLeadWith xs ys

/-- Modelled from the spec: a child key matches when its segments are a
prefix of the remaining unmatched segments; the empty (index) key matches
only when no segments remain. -/
def childMatches (segs : List String) (k : String) : Bool :=
  segsLeadWith (keySegments k) segs && (!(keySegments k).isEmpty || segs.isEmpty)

/-- The length of the longest matching registered key, if any. -/
def bestKeyLen (children : List (String × RouteTreeNode)) (segs : List String) : Option Nat :=
  (children.filterMap
    (fun p => if childMatches segs p.1 then some (keySegments p.1).length else none)).max?

/-- Modelled from the spec: a switch matches the longest registered path
prefix among its children; ties are broken by insertion order. -/
def findMatch (children : List (String × RouteTreeNode)) (segs : List String) :
    Option (String × RouteTreeNode) :=
  match bestKeyLen children segs with
  | none => none
  | some len =>
    children.find? (fun p => childMatches segs p.1 && (keySegments p.1).length == len)

/-- The route contributed by entering a matched child node. -/
def routeOfNode : RouteTreeNode → Route
  | .switchNode _ => { type := RouteType.Switch, title := none, target := none }
  | .pageNode t => { type := RouteType.Page, title := some t, target := none }
  | .redirectNode tgt => { type := RouteType.Redirect, title := none, target := some tgt }

def findMatch_mem {children : List (String × RouteTreeNode)} {segs : List String}
    {k : String} {child : RouteTreeNode}
    (h : findMatch children segs = some (k, child)) : (k, child) ∈ children := by
  unfold findMatch at h
  cases hb : bestKeyLen children segs with
  | none => rw [hb] at h; exact absurd h (by simp)
  | some len =>
    rw [hb] at h
    exact List.mem_of_find?_eq_some h

def findMatch_sizeOf {children : List (String × RouteTreeNode)} {segs : List String}
    {k : String} {child : RouteTreeNode}
    (h : findMatch children segs = some (k, child)) :
    sizeOf child < sizeOf (RouteTreeNode.switchNode children) := by
  have hmem := findMatch_mem h
  have h1 : sizeOf (k, child) < sizeOf children := List.sizeOf_lt_of_mem hmem
  simp only [Prod.mk.sizeOf_spec] at h1
  simp only [RouteTreeNode.switchNode.sizeOf_spec]
  omega

/-- Modelled from the spec: resolution walks the tree, producing one Route
per matched segment level; when no child matches and no index route exists
the chain ends in a NotFound route, as a value rather than an exception
(resolution is a total function). -/
def resolveNode : RouteTreeNode → List String → List Route
  | .pageNode _, segs => if segs.isEmpty then [] else [notFoundRoute]
  | .redirectNode _, _ => []
  | .switchNode children, segs =>
    match hm : findMatch children segs with
    | none => [notFoundRoute]
    | some (k, child) =>
      routeOfNode child :: resolveNode child (segs.drop (keySegments k).length)
termination_by n _ => sizeOf n
decreasing_by exact findMatch_sizeOf hm

/-- Example tree from the spec: a posts switch containing a hello page. -/
def exampleTree : RouteTreeNode :=
  RouteTreeNode.switchNode
    [("/posts", RouteTreeNode.switchNode [("/hello", RouteTreeNode.pageNode "hello")])]

/-- Example tree with a redirect leaf. -/
def redirectTree : RouteTreeNode :=
  RouteTreeNode.switchNode [("/old", RouteTreeNode.redirectNode "/new")]

/- ### Router and the loader environment -/

/-- Modelled from the spec: the HTTP method recorded in a loader environment
(the HTTPMethod source is not provided). -/
inductive HTTPMethod where
  | get
  | head
  | post
  | put
  | del
  | options
  | patch
deriving DecidableEq

/-- Modelled from the spec: URL parameters (the URLTools source is not
provided). -/
abbrev Params := List (String × String)

/-- The options the Router is constructed with, as passed by
BrowserNavigation.  The rootJunction and rootPath fields hold whatever values
the caller supplies at run time, which may be undefined. -/
structure RouterOptions (Context : Type) where
  rootContext : Option Context
  rootJunction : Option RouteTreeNode
  rootPath : Option String

/-- The Router: holds (not owns) its Resolver together with its construction
options. -/
structure Router (Context : Type) where
  resolver : Resolver
  options : RouterOptions Context

/-- Modelled from the spec: router.resolve(href, opts) walks the root
junction tree against the requested path (the Router source is not
provided); with no root junction there is nothing to resolve. -/
def Router.resolve {Context : Type} (r : Router Context) (href : String)
    (opts : ResolveOptions) : Option (List Route) :=
  let _ := opts
  match r.options.rootJunction with
  | some j => some (resolveNode j (splitSegments href))
  | none => none

/-- From RouterEnv.ts: the environment object passed to every loader
function, consisting of exactly the read-only fields context, method, params,
pathname, query, router and unmatchedPathnamePart. -/
structure RouterEnv (Context : Type) where
  context : Context
  method : HTTPMethod
  params : Params
  pathname : String
  query : Params
  router : Router Context
  unmatchedPathnamePart : String

/-- A concrete router over the example tree. -/
def demoRouter : Router Nat :=
  { resolver := Resolver.empty
    options :=
      { rootContext := some 0, rootJunction := some exampleTree, rootPath := none } }

/-- A concrete loader environment over the example tree. -/
def demoEnv : RouterEnv Nat :=
  { context := 0, method := HTTPMethod.get, params := [], pathname := "/",
    query := [], router := demoRouter, unmatchedPathnamePart := "" }

/- ### BrowserNavigation (from BrowserNavigation.ts) -/

/-- Model of a history object from the external history package. -/
structure History where
  id : Nat
deriving DecidableEq

/-- The default browser history created when none is supplied. -/
def createBrowserHistory : History := History.mk 0

/-- The setDocumentTitle option: a boolean or a title-processing function. -/
inductive TitleOption where
  | bool (b : Bool)
  | func (f : Option String → String)

/-- Modelled from the spec: the history routing observable wraps Router
output as a replayable stream (HistoryRoutingObservable is not among the
provided sources).  Only the router binding and a generation counter for
re-resolution are modelled here; the event-level steadiness semantics are
modelled separately below. -/
structure HistoryRoutingObservable (Context : Type) where
  history : History
  router : Router Context
  generation : Nat

/-- Modelled from the spec: creating the observable binds the history and
the initial router. -/
def createHistoryRoutingObservable {Context : Type} (history : History)
    (router : Router Context) : HistoryRoutingObservable Context :=
  { history := history, router := router, generation := 0 }

/-- Modelled from the spec: setRouter replaces the router and triggers a full
re-resolution of the current URL even if the pathname is unchanged, modelled
as a generation increment. -/
def HistoryRoutingObservable.setRouter {Context : Type}
    (o : HistoryRoutingObservable Context) (r : Router Context) :
    HistoryRoutingObservable Context :=
  { o with router := r, generation := o.generation + 1 }

/-- The options accepted by createBrowserNavigation, from
BrowserNavigation.ts. -/
structure BrowserNavigationOptions (Context : Type) where
  history : Option History
  setDocumentTitle : Option TitleOption
  disableScrollHandling : Option Bool
  initialRootContext : Option Context
  rootJunction : RouteTreeNode
  rootPath : Option String

/-- The BrowserNavigation state, from BrowserNavigation.ts.  The private
rootJunction and rootPath fields are optional because the class declares them
without ever assigning them, so at run time they hold undefined.  The
receivedState and renderedState bookkeeping fields, which no claim touches,
are omitted. -/
structure BrowserNavigation (Context : Type) where
  history : History
  setDocumentTitle : Option (Option String → String)
  disableScrollHandling : Bool
  rootJunction : Option RouteTreeNode
  rootPath : Option String
  resolver : Resolver
  router : Router Context
  historyRoutingObservable : HistoryRoutingObservable Context

/-- From the BrowserNavigation.ts constructor: builds the history, a fresh
Resolver, and a Router from the supplied options; the private rootJunction
and rootPath fields are never assigned, so they remain undefined (none). -/
def mkBrowserNavigation {Context : Type} (options : BrowserNavigationOptions Context) :
    BrowserNavigation Context :=
  let history := options.history.getD createBrowserHistory
  let resolver := Resolver.empty
  let router : Router Context :=
    { resolver := resolver
      options :=
        { rootContext := options.initialRootContext
          rootJunction := some options.rootJunction
          rootPath := options.rootPath } }
  { history := history
    setDocumentTitle :=
      match options.setDocumentTitle with
      | some (TitleOption.bool false) => none
      | some (TitleOption.func f) => some f
      | _ => some (fun t =>
          match t with
          | some s => if s = "" then "Untitled Page" else s
          | none => "Untitled Page")
    disableScrollHandling := options.disableScrollHandling.getD false
    rootJunction := none
    rootPath := none
    resolver := resolver
    router := router
    historyRoutingObservable := createHistoryRoutingObservable history router }

/-- From BrowserNavigation.ts setContext: builds a replacement Router with
the same Resolver, the new context, and the values of the private
rootJunction and rootPath fields, then hands the new Router to the
observable. -/
def BrowserNavigation.setContext {Context : Type} (nav : BrowserNavigation Context)
    (context : Context) : BrowserNavigation Context :=
  let router : Router Context :=
    { resolver := nav.resolver
      options :=
        { rootContext := some context
          rootJunction := nav.rootJunction
          rootPath := nav.rootPath } }
  { nav with
    router := router
    historyRoutingObservable := nav.historyRoutingObservable.setRouter router }

/-- A concrete root junction supplied to createBrowserNavigation. -/
def sampleJunction : RouteTreeNode := RouteTreeNode.pageNode "home"

/-- Concrete creation options with an initial root context of 1. -/
def sampleOptions : BrowserNavigationOptions Nat :=
  { history := none, setDocumentTitle := none, disableScrollHandling := none,
    initialRootContext := some 1, rootJunction := sampleJunction, rootPath := some "/r" }

/- ### Steadiness semantics of the routing observable -/

/-- The events the routing observable reacts to: a navigation to a URL, or
the completion of the content resolution for a URL. -/
inductive NavEvent where
  | navigate (url : String)
  | resolved (url : String)

/-- Boolean discriminator for navigation events. -/
def isNavigateEv : NavEvent → Bool
  | .navigate _ => true
  | .resolved _ => false

/-- The observable state: the URL of the newest request and whether the
current URL has reached steadiness. -/
structure ObsState where
  currentURL : Option String
  steady : Bool
deriving DecidableEq

/-- Modelled from the spec: a navigation starts a new pending resolution for
the new URL, clearing steadiness; a resolution completion makes the state
steady only when it pertains to the current URL, so a stale resolution for a
superseded URL is disregarded (HistoryRoutingObservable is not among the
provided sources). -/
def obsStep (s : ObsState) : NavEvent → ObsState
  | .navigate u => { currentURL := some u, steady := false }
  | .resolved u => if s.currentURL = some u then { s with steady := true } else s

/-- The sequence of states the observable passes through on an event trace. -/
def obsRun (s : ObsState) : List NavEvent → List ObsState
  | [] => []
  | e :: es => obsStep s e :: obsRun (obsStep s e) es

/-- The URLs of the steady states emitted to subscribers along a trace. -/
def steadyEmissions (s : ObsState) (evs : List NavEvent) : List (Option String) :=
  ((obsRun s evs).filter (fun st => st.steady)).map (fun st => st.currentURL)

/-- Modelled from the spec: getSteadyState returns a deferred value that
completes at the first state whose current URL has reached steadiness,
carrying that URL. -/
def getSteadyStateResult (s : ObsState) (evs : List NavEvent) : Option (Option String) :=
  ((obsRun s evs).find? (fun st => st.steady)).map (fun st => st.currentURL)

/- ### Theorems for claim C7 -/

theorem data_append (a b : String) : (a ++ b).data = a.data ++ b.data := rfl

theorem slash_data : ("/" : String).data = ['/'] := rfl

theorem modifyTrailingSlash_add_lastSlash (p : String) :
    (modifyTrailingSlash p SlashMode.add).data.getLast? = some '/' := by
  unfold modifyTrailingSlash
  by_cases h : p.data.getLast? = some '/'
  · simp [h]
  · simp [h, data_append, slash_data]

/-- C7, counterexample: applying remove twice to the pathname "/a//" differs
from applying it once, so modifyTrailingSlash in remove mode is not idempotent
on all pathnames. -/
theorem modifyTrailingSlash_remove_counterexample :
    modifyTrailingSlash (modifyTrailingSlash "/a//" SlashMode.remove) SlashMode.remove ≠
      modifyTrailingSlash "/a//" SlashMode.remove := by decide

/-- C7, amended: for every pathname p, applying add twice equals applying it
once; and applying remove twice equals applying it once provided p does not
end in a double slash. -/
theorem modifyTrailingSlash_idem (p : String) :
    modifyTrailingSlash (modifyTrailingSlash p SlashMode.add) SlashMode.add =
      modifyTrailingSlash p SlashMode.add ∧
    (endsWithDoubleSlash p = false →
      modifyTrailingSlash (modifyTrailingSlash p SlashMode.remove) SlashMode.remove =
        modifyTrailingSlash p SlashMode.remove) := by
  constructor
  · have h := modifyTrailingSlash_add_lastSlash p
    conv_lhs => rw [modifyTrailingSlash]
    simp [h]
  · intro hd
    by_cases h : p.data.getLast? = some '/'
    · have hrem : modifyTrailingSlash p SlashMode.remove = String.mk p.data.dropLast := by
        rw [modifyTrailingSlash]
        simp [h]
      rw [hrem]
      have htl : (String.mk p.data.dropLast).data.getLast? ≠ some '/' := by
        unfold endsWithDoubleSlash at hd
        rw [Bool.and_eq_false_iff] at hd
        rcases hd with hd | hd
        · exfalso
          rw [beq_eq_false_iff_ne] at hd
          exact hd h
        · rw [beq_eq_false_iff_ne] at hd
          simpa using hd
      rw [modifyTrailingSlash]
      simp [htl]
    · have hrem : modifyTrailingSlash p SlashMode.remove = p := by
        rw [modifyTrailingSlash]
        simp [h]
      rw [hrem, modifyTrailingSlash]
      simp [h]

/-- C7 witness: the theorem applied at the concrete pathname "/x/". -/
theorem modifyTrailingSlash_idem_witness :
    endsWithDoubleSlash "/x/" = false ∧
    modifyTrailingSlash (modifyTrailingSlash "/x/" SlashMode.add) SlashMode.add =
      modifyTrailingSlash "/x/" SlashMode.add ∧
    modifyTrailingSlash (modifyTrailingSlash "/x/" SlashMode.remove) SlashMode.remove =
      modifyTrailingSlash "/x/" SlashMode.remove :=
  ⟨by decide, (modifyTrailingSlash_idem "/x/").1, (modifyTrailingSlash_idem "/x/").2 (by decide)⟩

/- ### Theorems for claims C9, C10, C6 -/

/-- C9: for every non-external href and current route, useActive with exact
set returns true exactly when the link URL pathname equals the route pathname
as raw strings (no trailing-slash normalization), and with exact unset it
returns true exactly when the route pathname with a trailing slash added
starts with the link URL pathname as a raw string prefix. -/
theorem useActive_matching
    (href : Href) (c : NaviCtx) (loading : Bool)
    (R : RouteObj) (hroute : useActiveRoute c loading = some R)
    (u : URLDescriptor) (hlink : getLinkURL href (some R.url) = some u) :
    (useActive href c true loading = true ↔ u.pathname = R.url.pathname) ∧
    (useActive href c false loading = true ↔
      leadsWith u.pathname.data
        (modifyTrailingSlash R.url.pathname SlashMode.add).data = true) := by
  unfold useActive
  rw [hroute]
  simp only [Option.map_some']
  rw [hlink]
  constructor
  · simp
  · simp

/-- C9 witness: the theorem applied with href "/foo" while viewing
"/foobar/"; the final conjunct shows the non-segment-aligned prefix is
reported active. -/
theorem useActive_matching_witness :
    useActiveRoute
        (NaviCtx.mk true (some (RouteObj.mk (createURLDescriptor (.str "/foobar/")))) none)
        false =
      some (RouteObj.mk (createURLDescriptor (.str "/foobar/"))) ∧
    getLinkURL (some (.str "/foo")) (some (createURLDescriptor (.str "/foobar/"))) =
      some (createURLDescriptor (.str "/foo")) ∧
    (useActive (some (.str "/foo"))
        (NaviCtx.mk true (some (RouteObj.mk (createURLDescriptor (.str "/foobar/")))) none)
        false false = true ↔
      leadsWith (createURLDescriptor (.str "/foo")).pathname.data
        (modifyTrailingSlash (createURLDescriptor (.str "/foobar/")).pathname
          SlashMode.add).data = true) ∧
    useActive (some (.str "/foo"))
        (NaviCtx.mk true (some (RouteObj.mk (createURLDescriptor (.str "/foobar/")))) none)
        false false = true :=
  ⟨rfl, by decide,
   (useActive_matching (some (.str "/foo"))
      (NaviCtx.mk true (some (RouteObj.mk (createURLDescriptor (.str "/foobar/")))) none)
      false (RouteObj.mk (createURLDescriptor (.str "/foobar/"))) rfl
      (createURLDescriptor (.str "/foo")) (by decide)).2,
   by decide⟩

theorem handleClick_navigateTo_none (disabled hasOnClick onClickPD : Bool)
    (routeURL : Option URLDescriptor) (state : Option StateObj) (ev : MouseEvent) :
    (handleClick disabled hasOnClick onClickPD routeURL none state ev).navigateTo = none := by
  unfold handleClick
  repeat' split
  all_goals simp_all

/-- C10: for every falsy href and every string href containing "://" or
beginning with "mailto:", the href is classified external, getLinkURL gives no
URL, useLinkProps returns the raw href unchanged, the click handler never
issues a navigate call, and useActive returns false. -/
theorem externalHref_behavior (href : Href) (h : externalCondition href) :
    isExternalHref href = true ∧
    (∀ routeURL, getLinkURL href routeURL = none) ∧
    (∀ routeURL, useLinkPropsHref href (getLinkURL href routeURL) = HrefOut.raw href) ∧
    (∀ disabled hasOnClick onClickPD routeURL state ev,
      (handleClick disabled hasOnClick onClickPD routeURL (getLinkURL href routeURL)
        state ev).navigateTo = none) ∧
    (∀ c exact loading, useActive href c exact loading = false) := by
  have hext : isExternalHref href = true := by
    rcases h with h | ⟨s, hs, hcond⟩
    · subst h; rfl
    · subst hs
      unfold isExternalHref
      rcases hcond with h1 | h1 | h1 <;> simp [h1]
  have hnone : ∀ routeURL, getLinkURL href routeURL = none := by
    intro r
    unfold getLinkURL
    simp [hext]
  refine ⟨hext, hnone, ?_, ?_, ?_⟩
  · intro r
    rw [hnone r]
    rfl
  · intro disabled h1 h2 r st ev
    rw [hnone r]
    exact handleClick_navigateTo_none disabled h1 h2 r st ev
  · intro c exact loading
    simp [useActive, hnone]

/-- C10 witness: the theorem applied to the mailto href. -/
theorem externalHref_behavior_witness :
    externalCondition (some (.str "mailto:bob@example.com")) ∧
    getLinkURL (some (.str "mailto:bob@example.com")) none = none ∧
    useActive (some (.str "mailto:bob@example.com")) (NaviCtx.mk true none none)
      true false = false :=
  ⟨Or.inr ⟨"mailto:bob@example.com", rfl, Or.inr (Or.inr (by decide))⟩,
   (externalHref_behavior (some (.str "mailto:bob@example.com"))
     (Or.inr ⟨"mailto:bob@example.com", rfl, Or.inr (Or.inr (by decide))⟩)).2.1 none,
   (externalHref_behavior (some (.str "mailto:bob@example.com"))
     (Or.inr ⟨"mailto:bob@example.com", rfl, Or.inr (Or.inr (by decide))⟩)).2.2.2.2
     (NaviCtx.mk true none none) true false⟩

/-- C6 counterexample: for the non-external href "/x", which resolves to a
URL with pathname "/x", the claim as stated fails: (a) with no current route
URL, an unmodified primary-button click neither prevents default nor
navigates; (b) on a disabled link, navigate is not called; (c) with no
navigation object in context, prefetch is not called. -/
theorem useLinkProps_claim_counterexample :
    isExternalHref (some (.str "/x")) = false ∧
    (getLinkURL (some (.str "/x")) none).map URLDescriptor.pathname = some "/x" ∧
    (handleClick false false false none (getLinkURL (some (.str "/x")) none) none
        (MouseEvent.mk 0 false false false false false)).defaultPrevented = false ∧
    (handleClick false false false none (getLinkURL (some (.str "/x")) none) none
        (MouseEvent.mk 0 false false false false false)).navigateTo = none ∧
    (handleClick true false false (some (createURLDescriptor (.str "/cur")))
        (getLinkURL (some (.str "/x")) (some (createURLDescriptor (.str "/cur")))) none
        (MouseEvent.mk 0 false false false false false)).navigateTo = none ∧
    prefetchURL true false (getLinkURL (some (.str "/x")) none) = none := by
  decide

/-- C6 amended: for a non-external href resolving to a URL with a non-empty
pathname, given a navigation object in context, useLinkProps with prefetch
requested passes exactly that URL to navigation.prefetch; and on an
unmodified primary-button click that is not default-prevented, provided the
link is not disabled, a current route URL is available, and no user onClick
handler prevented default, the handler prevents the default action and calls
navigation.navigate with the link URL and, when a state object was given,
an options object wrapping that state. -/
theorem useLinkProps_prefetch_click
    (href : Href) (c : NaviCtx) (u R : URLDescriptor)
    (hnav : c.navigation = true)
    (hroute : (orOption c.steadyRoute c.busyRoute).map RouteObj.url = some R)
    (hlink : useLinkPropsLinkURL href c = some u)
    (hpath : u.pathname ≠ "")
    (state : Option StateObj) (ev : MouseEvent)
    (hbutton : ev.button = 0)
    (halt : ev.altKey = false) (hctrl : ev.ctrlKey = false)
    (hmeta : ev.metaKey = false) (hshift : ev.shiftKey = false)
    (hdp : ev.defaultPrevented = false)
    (hasOnClick onClickPD : Bool) (honclick : (hasOnClick && onClickPD) = false) :
    prefetchURL true c.navigation (useLinkPropsLinkURL href c) = some u ∧
    (handleClick false hasOnClick onClickPD
        ((orOption c.steadyRoute c.busyRoute).map RouteObj.url)
        (useLinkPropsLinkURL href c) state ev).defaultPrevented = true ∧
    (handleClick false hasOnClick onClickPD
        ((orOption c.steadyRoute c.busyRoute).map RouteObj.url)
        (useLinkPropsLinkURL href c) state ev).navigateTo =
      some (u, state.map (fun s => NavigateOpts.mk s)) := by
  rw [hroute, hlink]
  refine ⟨?_, ?_, ?_⟩
  · unfold prefetchURL
    simp [hnav, hpath]
  · unfold handleClick
    simp [hbutton, halt, hctrl, hmeta, hshift, hdp, honclick]
  · unfold handleClick
    simp [hbutton, halt, hctrl, hmeta, hshift, hdp, honclick]

/-- C6 witness: the theorem applied with href "/x", current route "/cur", a
state object, and an unmodified primary-button click. -/
theorem useLinkProps_prefetch_click_witness :
    prefetchURL true true
        (useLinkPropsLinkURL (some (.str "/x"))
          (NaviCtx.mk true (some (RouteObj.mk (createURLDescriptor (.str "/cur")))) none)) =
      some (createURLDescriptor (.str "/x")) ∧
    (handleClick false false false
        ((orOption (some (RouteObj.mk (createURLDescriptor (.str "/cur")))) none).map
          RouteObj.url)
        (useLinkPropsLinkURL (some (.str "/x"))
          (NaviCtx.mk true (some (RouteObj.mk (createURLDescriptor (.str "/cur")))) none))
        (some 5) (MouseEvent.mk 0 false false false false false)).navigateTo =
      some (createURLDescriptor (.str "/x"), some (NavigateOpts.mk 5)) :=
  ⟨(useLinkProps_prefetch_click (some (.str "/x"))
      (NaviCtx.mk true (some (RouteObj.mk (createURLDescriptor (.str "/cur")))) none)
      (createURLDescriptor (.str "/x")) (createURLDescriptor (.str "/cur"))
      rfl rfl (by decide) (by decide) (some 5)
      (MouseEvent.mk 0 false false false false false)
      rfl rfl rfl rfl rfl rfl false false rfl).1,
   (useLinkProps_prefetch_click (some (.str "/x"))
      (NaviCtx.mk true (some (RouteObj.mk (createURLDescriptor (.str "/cur")))) none)
      (createURLDescriptor (.str "/x")) (createURLDescriptor (.str "/cur"))
      rfl rfl (by decide) (by decide) (some 5)
      (MouseEvent.mk 0 false false false false false)
      rfl rfl rfl rfl rfl rfl false false rfl).2.2⟩

/- ### Theorems for claim C1 -/

theorem countOf_bumpCount (l : List (ResolverKey × Nat)) (k : ResolverKey) :
    countOf (bumpCount l k) k = countOf l k + 1 := by
  induction l with
  | nil => simp [bumpCount, countOf]
  | cons p rest ih =>
    obtain ⟨k', n⟩ := p
    by_cases h : k' = k
    · simp [bumpCount, countOf, h]
    · simp [bumpCount, countOf, h, ih]

/-- C1: two Resolver.resolve calls for the same key, the second issued before
the first settles, share the same pending handle, leave the resolver state
unchanged by the second call, invoke the underlying loader exactly once, and
deliver the same resolved value to both callers; the calling Router identity
is irrelevant, so this holds across Router instances sharing the Resolver. -/
theorem resolver_resolve_dedup (r : Resolver) (routerId1 routerId2 : Nat)
    (path : String) (opts : ResolveOptions)
    (hfree : lookupKey r.inFlight (path, opts) = none) :
    (Resolver.resolve r routerId1 path opts).1 =
      (Resolver.resolve (Resolver.resolve r routerId1 path opts).2 routerId2 path opts).1 ∧
    (Resolver.resolve (Resolver.resolve r routerId1 path opts).2 routerId2 path opts).2 =
      (Resolver.resolve r routerId1 path opts).2 ∧
    countOf (Resolver.resolve r routerId1 path opts).2.loaderCalls (path, opts) =
      countOf r.loaderCalls (path, opts) + 1 ∧
    countOf (Resolver.resolve (Resolver.resolve r routerId1 path opts).2 routerId2
        path opts).2.loaderCalls (path, opts) =
      countOf r.loaderCalls (path, opts) + 1 ∧
    (∀ v : String,
      Resolver.received
          (Resolver.settle
            (Resolver.resolve (Resolver.resolve r routerId1 path opts).2 routerId2 path opts).2
            (Resolver.resolve r routerId1 path opts).1 v)
          (Resolver.resolve (Resolver.resolve r routerId1 path opts).2 routerId2 path opts).1 =
        some v) := by
  have h1 : Resolver.resolve r routerId1 path opts =
      (r.nextHandle,
        { r with
          inFlight := ((path, opts), r.nextHandle) :: r.inFlight
          nextHandle := r.nextHandle + 1
          loaderCalls := bumpCount r.loaderCalls (path, opts) }) := by
    unfold Resolver.resolve
    simp [hfree]
  have h2 : lookupKey (((path, opts), r.nextHandle) :: r.inFlight) (path, opts) =
      some r.nextHandle := by
    simp [lookupKey]
  have h3 : Resolver.resolve (Resolver.resolve r routerId1 path opts).2 routerId2 path opts =
      (r.nextHandle, (Resolver.resolve r routerId1 path opts).2) := by
    rw [h1]
    unfold Resolver.resolve
    simp [h2]
  refine ⟨?_, ?_, ?_, ?_, ?_⟩
  · rw [h3, h1]
  · rw [h3]
  · rw [h1]
    exact countOf_bumpCount r.loaderCalls (path, opts)
  · rw [h3, h1]
    exact countOf_bumpCount r.loaderCalls (path, opts)
  · intro v
    rw [h3, h1]
    simp [Resolver.settle, Resolver.received, lookupHandle]

/-- C1 witness: the theorem applied to the empty resolver, the key "/a/b"
with content requested, and two distinct router identities. -/
theorem resolver_resolve_dedup_witness :
    lookupKey Resolver.empty.inFlight ("/a/b", ResolveOptions.mk true) = none ∧
    (Resolver.resolve Resolver.empty 0 "/a/b" (ResolveOptions.mk true)).1 =
      (Resolver.resolve (Resolver.resolve Resolver.empty 0 "/a/b" (ResolveOptions.mk true)).2
        1 "/a/b" (ResolveOptions.mk true)).1 ∧
    countOf (Resolver.resolve Resolver.empty 0 "/a/b" (ResolveOptions.mk true)).2.loaderCalls
      ("/a/b", ResolveOptions.mk true) =
      countOf Resolver.empty.loaderCalls ("/a/b", ResolveOptions.mk true) + 1 :=
  ⟨rfl,
   (resolver_resolve_dedup Resolver.empty 0 1 "/a/b" (ResolveOptions.mk true) rfl).1,
   (resolver_resolve_dedup Resolver.empty 0 1 "/a/b" (ResolveOptions.mk true) rfl).2.2.1⟩

/- ### Theorems for claim C4 -/

theorem resolveNode_switch_eq (children : List (String × RouteTreeNode)) (segs : List String) :
    resolveNode (.switchNode children) segs =
      (match findMatch children segs with
        | none => [notFoundRoute]
        | some (k, child) =>
          routeOfNode child :: resolveNode child (segs.drop (keySegments k).length)) := by
  simp only [resolveNode]
  split
  case _ hm => rw [hm]
  case _ k child hm => rw [hm]

theorem resolveNode_switch_some {children : List (String × RouteTreeNode)} {segs : List String}
    {k : String} {child : RouteTreeNode} (h : findMatch children segs = some (k, child)) :
    resolveNode (.switchNode children) segs =
      routeOfNode child :: resolveNode child (segs.drop (keySegments k).length) := by
  rw [resolveNode_switch_eq, h]

theorem resolveNode_switch_none {children : List (String × RouteTreeNode)} {segs : List String}
    (h : findMatch children segs = none) :
    resolveNode (.switchNode children) segs = [notFoundRoute] := by
  rw [resolveNode_switch_eq, h]

theorem resolveNode_page_eq (t : String) (segs : List String) :
    resolveNode (.pageNode t) segs = if segs.isEmpty then [] else [notFoundRoute] := by
  simp only [resolveNode]

theorem resolveNode_redirect_eq (tgt : String) (segs : List String) :
    resolveNode (.redirectNode tgt) segs = [] := by
  simp only [resolveNode]

theorem resolveNode_example_hello : resolveNode exampleTree ["posts", "hello"] =
    [{ type := RouteType.Switch, title := none, target := none },
     { type := RouteType.Page, title := some "hello", target := none }] := by
  rw [exampleTree,
    resolveNode_switch_some (show findMatch
      [("/posts", RouteTreeNode.switchNode [("/hello", RouteTreeNode.pageNode "hello")])]
      ["posts", "hello"] =
      some ("/posts", RouteTreeNode.switchNode [("/hello", RouteTreeNode.pageNode "hello")])
      from rfl),
    show List.drop (keySegments "/posts").length ["posts", "hello"] = ["hello"] from rfl,
    resolveNode_switch_some (show findMatch [("/hello", RouteTreeNode.pageNode "hello")]
      ["hello"] = some ("/hello", RouteTreeNode.pageNode "hello") from rfl),
    show List.drop (keySegments "/hello").length ["hello"] = ([] : List String) from rfl,
    resolveNode_page_eq]
  rfl

theorem resolveNode_example_missing : resolveNode exampleTree ["posts", "missing"] =
    [{ type := RouteType.Switch, title := none, target := none }, notFoundRoute] := by
  rw [exampleTree,
    resolveNode_switch_some (show findMatch
      [("/posts", RouteTreeNode.switchNode [("/hello", RouteTreeNode.pageNode "hello")])]
      ["posts", "missing"] =
      some ("/posts", RouteTreeNode.switchNode [("/hello", RouteTreeNode.pageNode "hello")])
      from rfl),
    show List.drop (keySegments "/posts").length ["posts", "missing"] = ["missing"] from rfl,
    resolveNode_switch_none (show findMatch [("/hello", RouteTreeNode.pageNode "hello")]
      ["missing"] = none from rfl)]
  rfl

theorem resolveNode_redirect_old : resolveNode redirectTree ["old"] =
    [{ type := RouteType.Redirect, title := none, target := some "/new" }] := by
  rw [redirectTree,
    resolveNode_switch_some (show findMatch [("/old", RouteTreeNode.redirectNode "/new")]
      ["old"] = some ("/old", RouteTreeNode.redirectNode "/new") from rfl),
    show List.drop (keySegments "/old").length ["old"] = ([] : List String) from rfl,
    resolveNode_redirect_eq]
  rfl

/-- C4: when no child matches and no index route exists, resolution ends in a
NotFound route as a plain value (resolution is a total function, so nothing is
thrown); NotFound and Redirect are surfaced through Route.type, as the
concrete resolutions of the spec example tree show. -/
theorem resolution_notFound_is_data :
    (∀ (children : List (String × RouteTreeNode)) (segs : List String),
      findMatch children segs = none →
        resolveNode (RouteTreeNode.switchNode children) segs = [notFoundRoute] ∧
        notFoundRoute.type = RouteType.NotFound) ∧
    (resolveNode exampleTree ["posts", "hello"]).length = 2 ∧
    (resolveNode exampleTree ["posts", "hello"]).getLast?.map Route.type =
      some RouteType.Page ∧
    (resolveNode exampleTree ["posts", "missing"]).getLast?.map Route.type =
      some RouteType.NotFound ∧
    (resolveNode redirectTree ["old"]).getLast?.map Route.type =
      some RouteType.Redirect := by
  refine ⟨fun children segs h => ⟨resolveNode_switch_none h, rfl⟩, ?_, ?_, ?_, ?_⟩
  · rw [resolveNode_example_hello]
    rfl
  · rw [resolveNode_example_hello]
    rfl
  · rw [resolveNode_example_missing]
    rfl
  · rw [resolveNode_redirect_old]
    rfl

/-- C4 witness: the theorem applied to a switch with no children at the
segment list containing only "zzz". -/
theorem resolution_notFound_is_data_witness :
    findMatch ([] : List (String × RouteTreeNode)) ["zzz"] = none ∧
    resolveNode (RouteTreeNode.switchNode []) ["zzz"] = [notFoundRoute] :=
  ⟨rfl, (resolution_notFound_is_data.1 [] ["zzz"] rfl).1⟩

/- ### Theorems for claim C5 -/

/-- C5: a loader environment is determined by exactly the seven fields
context, method, params, pathname, query, router and unmatchedPathnamePart
(the structure has no other fields, and Lean structures are immutable,
matching the readonly markers of the source); its router field supports
router.resolve(href, opts), as the concrete recursive resolution of
"/posts/hello" from inside an environment shows. -/
theorem routerEnv_shape :
    (∀ (Context : Type) (e : RouterEnv Context),
      e = RouterEnv.mk e.context e.method e.params e.pathname e.query e.router
            e.unmatchedPathnamePart) ∧
    demoEnv.router.resolve "/posts/hello" (ResolveOptions.mk false) =
      some [{ type := RouteType.Switch, title := none, target := none },
            { type := RouteType.Page, title := some "hello", target := none }] := by
  constructor
  · intro Context e
    rfl
  · rw [show demoEnv.router.resolve "/posts/hello" (ResolveOptions.mk false) =
        some (resolveNode exampleTree (splitSegments "/posts/hello")) from rfl]
    rw [show splitSegments "/posts/hello" = ["posts", "hello"] from rfl,
      resolveNode_example_hello]

/- ### Theorems for claims C8 and C2 -/

/-- C8: the constructor never assigns the private rootJunction and rootPath
fields, so every replacement Router built by setContext receives undefined
for both, rather than the originally supplied root junction and root path. -/
theorem browserNavigation_root_fields {Context : Type}
    (options : BrowserNavigationOptions Context) (ctx : Context) :
    (mkBrowserNavigation options).rootJunction = none ∧
    (mkBrowserNavigation options).rootPath = none ∧
    ((mkBrowserNavigation options).setContext ctx).router.options.rootJunction = none ∧
    ((mkBrowserNavigation options).setContext ctx).router.options.rootPath = none ∧
    ((mkBrowserNavigation options).setContext ctx).router.options.rootJunction ≠
      some options.rootJunction := by
  refine ⟨rfl, rfl, rfl, rfl, ?_⟩
  intro h
  rw [show ((mkBrowserNavigation options).setContext ctx).router.options.rootJunction =
      none from rfl] at h
  exact Option.noConfusion h

/-- C2 counterexample: with an initial root context of 1, calling setContext
with the different context 2 reuses the very same Resolver (no new Resolver
instance although the contexts differ) and builds the replacement Router with
neither the originally supplied root junction nor the original root path. -/
theorem setContext_claim_counterexample :
    sampleOptions.initialRootContext = some 1 ∧
    ((mkBrowserNavigation sampleOptions).setContext 2).router.options.rootContext =
      some 2 ∧
    ((mkBrowserNavigation sampleOptions).setContext 2).router.resolver =
      (mkBrowserNavigation sampleOptions).resolver ∧
    ((mkBrowserNavigation sampleOptions).setContext 2).router.options.rootJunction ≠
      some sampleJunction ∧
    ((mkBrowserNavigation sampleOptions).setContext 2).router.options.rootPath ≠
      some "/r" := by
  refine ⟨rfl, rfl, rfl, ?_, ?_⟩
  · intro h
    rw [show ((mkBrowserNavigation sampleOptions).setContext 2).router.options.rootJunction =
        none from rfl] at h
    exact Option.noConfusion h
  · intro h
    rw [show ((mkBrowserNavigation sampleOptions).setContext 2).router.options.rootPath =
        none from rfl] at h
    exact Option.noConfusion h

/-- C2 amended: setContext forms a new Router for the new context that is
always bound to the same Resolver (regardless of whether contexts match);
because the constructor never stores the originally supplied root junction
and root path, the new Router receives undefined for both; and handing the
new Router to the observable triggers a full re-resolution of the current URL
even if the pathname is unchanged. -/
theorem setContext_behavior {Context : Type}
    (options : BrowserNavigationOptions Context) (ctx : Context) :
    ((mkBrowserNavigation options).setContext ctx).router.resolver =
      (mkBrowserNavigation options).resolver ∧
    ((mkBrowserNavigation options).setContext ctx).router.options.rootContext =
      some ctx ∧
    ((mkBrowserNavigation options).setContext ctx).router.options.rootJunction = none ∧
    ((mkBrowserNavigation options).setContext ctx).router.options.rootPath = none ∧
    ((mkBrowserNavigation options).setContext ctx).historyRoutingObservable.router =
      ((mkBrowserNavigation options).setContext ctx).router ∧
    ((mkBrowserNavigation options).setContext ctx).historyRoutingObservable.generation =
      (mkBrowserNavigation options).historyRoutingObservable.generation + 1 :=
  ⟨rfl, rfl, rfl, rfl, rfl, rfl⟩

/- ### Theorems for claim C3 -/

theorem obsRun_currentURL_preserved (b : String) (rest : List NavEvent) :
    ∀ s : ObsState, (∀ e ∈ rest, isNavigateEv e = false) → s.currentURL = some b →
      ∀ st ∈ obsRun s rest, st.currentURL = some b := by
  induction rest with
  | nil =>
    intro s _ _ st hst
    simp [obsRun] at hst
  | cons e es ih =>
    intro s hno hs st hst
    have hstep : (obsStep s e).currentURL = some b := by
      cases e with
      | navigate u =>
        have hcontra := hno (NavEvent.navigate u) (by simp)
        simp [isNavigateEv] at hcontra
      | resolved u =>
        show (if s.currentURL = some u then { s with steady := true } else s).currentURL =
          some b
        by_cases hc : s.currentURL = some u
        · rw [if_pos hc]
          exact hs
        · rw [if_neg hc]
          exact hs
    simp only [obsRun, List.mem_cons] at hst
    rcases hst with h | h
    · exact h ▸ hstep
    · exact ih (obsStep s e) (fun e' he' => hno e' (by simp [he'])) hstep st h

/-- C3: once a navigation to b supersedes the pending navigation to a, and no
further navigation occurs, every steady state emitted to subscribers carries
the URL b; in particular the deferred value returned by getSteadyState
completes only with the newest URL b, and a steady state for the abandoned
URL a is never emitted. -/
theorem getSteadyState_supersession (a b : String) (hab : b ≠ a)
    (rest : List NavEvent) (hrest : ∀ e ∈ rest, isNavigateEv e = false) :
    (∀ x ∈ steadyEmissions (ObsState.mk none false)
        (NavEvent.navigate a :: NavEvent.navigate b :: rest), x = some b) ∧
    (∀ x, getSteadyStateResult (ObsState.mk none false)
        (NavEvent.navigate a :: NavEvent.navigate b :: rest) = some x → x = some b) ∧
    some a ∉ steadyEmissions (ObsState.mk none false)
        (NavEvent.navigate a :: NavEvent.navigate b :: rest) := by
  have hrun : obsRun (ObsState.mk none false)
      (NavEvent.navigate a :: NavEvent.navigate b :: rest) =
      ObsState.mk (some a) false :: ObsState.mk (some b) false ::
        obsRun (ObsState.mk (some b) false) rest := rfl
  have hall : ∀ st ∈ obsRun (ObsState.mk (some b) false) rest, st.currentURL = some b :=
    obsRun_currentURL_preserved b rest (ObsState.mk (some b) false) hrest rfl
  have hsteady : ∀ x ∈ steadyEmissions (ObsState.mk none false)
      (NavEvent.navigate a :: NavEvent.navigate b :: rest), x = some b := by
    intro x hx
    unfold steadyEmissions at hx
    rw [hrun] at hx
    simp only [List.filter_cons] at hx
    norm_num at hx
    obtain ⟨st, ⟨hstmem, _⟩, hxeq⟩ := hx
    exact hxeq ▸ hall st hstmem
  refine ⟨hsteady, ?_, ?_⟩
  · intro x hx
    unfold getSteadyStateResult at hx
    obtain ⟨st, hfind, hxeq⟩ := Option.map_eq_some'.mp hx
    have hst : st.steady = true := by
      have := List.find?_some hfind
      simpa using this
    have hmem := List.mem_of_find?_eq_some hfind
    rw [hrun] at hmem
    simp only [List.mem_cons] at hmem
    rcases hmem with h | h | h
    · rw [h] at hst
      simp at hst
    · rw [h] at hst
      simp at hst
    · exact hxeq ▸ hall st h
  · intro hmem
    have hba := hsteady (some a) hmem
    exact hab (Option.some.inj hba).symm

/-- C3 witness: the theorem applied to the trace that navigates to "/a",
then to "/b", and then sees the resolutions of "/a" and "/b" complete in
order; the final conjunct evaluates the deferred value, which completes with
the URL "/b". -/
theorem getSteadyState_supersession_witness :
    ("/b" : String) ≠ "/a" ∧
    (∀ e ∈ [NavEvent.resolved "/a", NavEvent.resolved "/b"], isNavigateEv e = false) ∧
    some "/a" ∉ steadyEmissions (ObsState.mk none false)
      (NavEvent.navigate "/a" :: NavEvent.navigate "/b" ::
        [NavEvent.resolved "/a", NavEvent.resolved "/b"]) ∧
    getSteadyStateResult (ObsState.mk none false)
      (NavEvent.navigate "/a" :: NavEvent.navigate "/b" ::
        [NavEvent.resolved "/a", NavEvent.resolved "/b"]) = some (some "/b") :=
  ⟨by decide,
   by
     intro e he
     simp only [List.mem_cons, List.not_mem_nil, or_false] at he
     rcases he with h | h <;> rw [h] <;> rfl,
   (getSteadyState_supersession "/a" "/b" (by decide)
     [NavEvent.resolved "/a", NavEvent.resolved "/b"]
     (by
       intro e he
       simp only [List.mem_cons, List.not_mem_nil, or_false] at he
       rcases he with h | h <;> rw [h] <;> rfl)).2.2,
   rfl⟩
